import Mathlib

/-!
Verification of `src/server/routes/query_assist/routes.ts`
(`registerQueryAssistRoutes`): the generate-PPL handler and the summarize
handler, shallowly embedded over `List Char` / `String`.

JavaScript strings are modelled as `List Char` (the inputs of interest are
ASCII, so UTF-16 versus scalar-value issues do not arise); machine behaviour
such as `x || y` on possibly-`undefined` values is made explicit.
-/

namespace QueryAssist

/-- The backtick character (written numerically). -/
def backtickChar : Char := Char.ofNat 96

/-- Left-brace character (written numerically). -/
def lbraceChar : Char := Char.ofNat 123

/-- Right-brace character (written numerically). -/
def rbraceChar : Char := Char.ofNat 125

/-! ## String normalization steps of the GENERATE_PPL handler

The handler (routes.ts lines 85-90) runs, in order:
`.replace(/[\r\n]/g, ' ')`, `.trim()`, `.replace(/ISNOTNULL/g, 'isnotnull')`,
`.replace(/backtick/g, '')`, `.replace(/\bSPAN\(/g, 'span(')`.
-/

/-- `.replace(/[\r\n]/g, ' ')`: every carriage return or line feed becomes one
space. -/
def collapseCRLF (s : List Char) : List Char :=
  s.map fun c => if c = '\r' ∨ c = '\n' then ' ' else c

/-- The character class stripped by JavaScript `String.prototype.trim`
(ECMAScript WhiteSpace and LineTerminator; the rarely-seen non-ASCII space
separators beyond NBSP/BOM/LS/PS are omitted — all inputs in this
development are ASCII). -/
def isJsWhitespace (c : Char) : Bool :=
  c = ' ' ∨ c = '\t' ∨ c = '\n' ∨ c = '\r' ∨ c = Char.ofNat 11 ∨
  c = Char.ofNat 12 ∨ c = Char.ofNat 0xa0 ∨ c = Char.ofNat 0xfeff ∨
  c = Char.ofNat 0x2028 ∨ c = Char.ofNat 0x2029

/-- `.trim()`: drop leading and trailing JavaScript whitespace. -/
def trimJs (s : List Char) : List Char :=
  ((s.dropWhile isJsWhitespace).reverse.dropWhile isJsWhitespace).reverse

/-- Scanner for global literal replacement, structurally recursive on the
input. `skip > 0` means the scanner is inside a match whose replacement is
already emitted: the character is consumed silently. At `skip = 0`, a match
of `p` starting here emits `r` and consumes the match (this character plus
`p.length - 1` more); otherwise the character is copied. -/
def replaceLitGo (p r : List Char) : Nat → List Char → List Char
  | _, [] => []
  | skip + 1, _ :: rest => replaceLitGo p r skip rest
  | 0, c :: rest =>
    if p ≠ [] ∧ p.isPrefixOf (c :: rest) then
      r ++ replaceLitGo p r (p.length - 1) rest
    else
      c :: replaceLitGo p r 0 rest

/-- Global, case-sensitive, left-to-right, non-overlapping replacement of the
literal pattern `p` by `r` — the semantics of `.replace(/lit/g, r)` for a
regex with no metacharacters. -/
def replaceAllLit (p r : List Char) (s : List Char) : List Char :=
  replaceLitGo p r 0 s

/-- `.replace(/backtick/g, '')`: remove every backtick. -/
def stripBackticks (s : List Char) : List Char :=
  s.filter fun c => c ≠ backtickChar

/-- Regex word character (`\w`): `[A-Za-z0-9_]`. -/
def isWordChar (c : Char) : Bool :=
  ('a' ≤ c ∧ c ≤ 'z') ∨ ('A' ≤ c ∧ c ≤ 'Z') ∨ ('0' ≤ c ∧ c ≤ '9') ∨ c = '_'

/-- `\b` holds just before a word character when the previous character is
absent (start of string) or not a word character. -/
def boundaryBefore (prev : Option Char) : Bool :=
  match prev with
  | none => true
  | some p => !isWordChar p

/-- Scanner for `.replace(/\bSPAN\(/g, 'span(')`: rewrite `SPAN(` to `span(`
wherever the previous input character (if any) is not a word character (`\b`
before the word character `S`). `prev` is the input character just before the
current position; `skip > 0` means the scanner is inside an already-replaced
match and consumes the character silently. -/
def replaceSpanGo (prev : Option Char) : Nat → List Char → List Char
  | _, [] => []
  | skip + 1, c :: rest => replaceSpanGo (some c) skip rest
  | 0, c :: rest =>
    if boundaryBefore prev ∧ "SPAN(".toList.isPrefixOf (c :: rest) then
      "span(".toList ++ replaceSpanGo (some c) 4 rest
    else
      c :: replaceSpanGo (some c) 0 rest

/-- `.replace(/\bSPAN\(/g, 'span(')` on a whole string. -/
def replaceSpan (s : List Char) : List Char := replaceSpanGo none 0 s

/-- The full normalization pipeline of routes.ts lines 85-90, applied to the
parsed `ppl` string. -/
def normalizePPL (s : List Char) : List Char :=
  replaceSpan (stripBackticks
    (replaceAllLit "ISNOTNULL".toList "isnotnull".toList
      (trimJs (collapseCRLF s))))

/-- String-level wrapper for `normalizePPL`. -/
def normalizePPLStr (s : String) : String :=
  (normalizePPL s.toList).asString

/-! ## JSON values, `JSON.parse` and `JSON.stringify` (for string values)

The GENERATE_PPL handler runs `JSON.parse` on the downstream result string
(routes.ts line 81); the SUMMARIZE handler runs `JSON.stringify` on the
validated `response` field (line 128). Numbers are kept as their lexemes:
no handler computation depends on a numeric value. -/

inductive Json where
  | str (s : String)
  | num (lexeme : String)
  | bool (b : Bool)
  | null
  | arr (items : List Json)
  | obj (fields : List (String × Json))

/-- JSON insignificant whitespace. -/
def isJsonWs (c : Char) : Bool :=
  c = ' ' ∨ c = '\t' ∨ c = '\n' ∨ c = '\r'

def skipWs (cs : List Char) : List Char := cs.dropWhile isJsonWs

def hexVal (c : Char) : Option Nat :=
  if '0' ≤ c ∧ c ≤ '9' then some (c.toNat - 48)
  else if 'a' ≤ c ∧ c ≤ 'f' then some (c.toNat - 87)
  else if 'A' ≤ c ∧ c ≤ 'F' then some (c.toNat - 55)
  else none

/-- Parse the body of a JSON string literal, the opening quote already
consumed; returns the decoded content and the remainder after the closing
quote. `JSON.parse` rejects raw control characters inside string literals and
unknown escapes. (`\uXXXX` escapes denoting UTF-16 surrogate halves are not
modelled — `Char` holds scalar values and no claim involves them.) -/
def parseJsonStringBody (fuel : Nat) (cs : List Char) :
    Option (List Char × List Char) :=
  match fuel with
  | 0 => none
  | fuel + 1 =>
    match cs with
    | [] => none
    | c :: rest =>
      if c = '"' then some ([], rest)
      else if c = '\\' then
        match rest with
        | [] => none
        | e :: rest2 =>
          let cont := fun (d : Char) (r : List Char) =>
            (parseJsonStringBody fuel r).map fun p => (d :: p.1, p.2)
          if e = '"' then cont '"' rest2
          else if e = '\\' then cont '\\' rest2
          else if e = '/' then cont '/' rest2
          else if e = 'b' then cont (Char.ofNat 8) rest2
          else if e = 'f' then cont (Char.ofNat 12) rest2
          else if e = 'n' then cont '\n' rest2
          else if e = 'r' then cont '\r' rest2
          else if e = 't' then cont '\t' rest2
          else if e = 'u' then
            match rest2 with
            | h1 :: h2 :: h3 :: h4 :: rest3 =>
              match hexVal h1, hexVal h2, hexVal h3, hexVal h4 with
              | some a, some b, some c2, some d2 =>
                let n := ((a * 16 + b) * 16 + c2) * 16 + d2
                if 0xd800 ≤ n ∧ n ≤ 0xdfff then none
                else cont (Char.ofNat n) rest3
              | _, _, _, _ => none
            | _ => none
          else none
      else if c.toNat < 32 then none
      else (parseJsonStringBody fuel rest).map fun p => (c :: p.1, p.2)

def isDigitChar (c : Char) : Bool := '0' ≤ c ∧ c ≤ '9'

/-- Parse a JSON number lexeme `-?(0|[1-9][0-9]*)(.[0-9]+)?([eE][+-]?[0-9]+)?`;
returns the lexeme and the remainder. -/
def parseJsonNumberLexeme (cs : List Char) : Option (List Char × List Char) :=
  let step1 : Option (List Char × List Char) :=
    let (sign, cs1) :=
      match cs with
      | '-' :: r => ((['-'] : List Char), r)
      | _ => ([], cs)
    match cs1 with
    | [] => none
    | c :: rest =>
      if c = '0' then some (sign ++ ['0'], rest)
      else if isDigitChar c then
        let ds := rest.takeWhile isDigitChar
        some (sign ++ c :: ds, rest.drop ds.length)
      else none
  let step2 : Option (List Char × List Char) :=
    step1.bind fun p =>
      match p.2 with
      | '.' :: r =>
        let ds := r.takeWhile isDigitChar
        if ds = [] then none
        else some (p.1 ++ '.' :: ds, r.drop ds.length)
      | _ => some p
  step2.bind fun p =>
    match p.2 with
    | c :: r =>
      if c = 'e' ∨ c = 'E' then
        let (sgn, r2) :=
          match r with
          | s :: r3 => if s = '+' ∨ s = '-' then (([s] : List Char), r3) else ([], r)
          | [] => (([] : List Char), r)
        let ds := r2.takeWhile isDigitChar
        if ds = [] then none
        else some (p.1 ++ c :: sgn ++ ds, r2.drop ds.length)
      else some p
    | [] => some p

mutual

/-- Parse one JSON value (leading whitespace allowed); returns the value and
the remainder. `fuel` bounds recursion depth and is initialised to be larger
than the input length, which suffices because every recursive call consumes at
least one character first. -/
def parseJsonValue (fuel : Nat) (cs : List Char) : Option (Json × List Char) :=
  match fuel with
  | 0 => none
  | fuel + 1 =>
    match skipWs cs with
    | [] => none
    | c :: rest =>
      if c = '"' then
        (parseJsonStringBody (rest.length + 1) rest).map fun p =>
          (Json.str p.1.asString, p.2)
      else if c = lbraceChar then parseJsonObjBody fuel rest
      else if c = '[' then parseJsonArrBody fuel rest
      else if c = 't' then
        if "rue".toList.isPrefixOf rest then some (Json.bool true, rest.drop 3)
        else none
      else if c = 'f' then
        if "alse".toList.isPrefixOf rest then some (Json.bool false, rest.drop 4)
        else none
      else if c = 'n' then
        if "ull".toList.isPrefixOf rest then some (Json.null, rest.drop 3)
        else none
      else if c = '-' ∨ isDigitChar c then
        (parseJsonNumberLexeme (c :: rest)).map fun p =>
          (Json.num p.1.asString, p.2)
      else none

/-- Parse the rest of an object, the opening brace already consumed. -/
def parseJsonObjBody (fuel : Nat) (cs : List Char) : Option (Json × List Char) :=
  match fuel with
  | 0 => none
  | fuel + 1 =>
    match skipWs cs with
    | [] => none
    | c :: rest =>
      if c = rbraceChar then some (Json.obj [], rest)
      else parseJsonMembers fuel [] (c :: rest)

/-- Parse one or more `"key": value` members followed by `}`. -/
def parseJsonMembers (fuel : Nat) (acc : List (String × Json)) (cs : List Char) :
    Option (Json × List Char) :=
  match fuel with
  | 0 => none
  | fuel + 1 =>
    match skipWs cs with
    | '"' :: rest =>
      match parseJsonStringBody (rest.length + 1) rest with
      | none => none
      | some (key, rest2) =>
        match skipWs rest2 with
        | ':' :: rest3 =>
          match parseJsonValue fuel rest3 with
          | none => none
          | some (v, rest4) =>
            match skipWs rest4 with
            | ',' :: rest5 =>
              parseJsonMembers fuel (acc ++ [(key.asString, v)]) rest5
            | c :: rest5 =>
              if c = rbraceChar then
                some (Json.obj (acc ++ [(key.asString, v)]), rest5)
              else none
            | [] => none
        | _ => none
    | _ => none

/-- Parse the rest of an array, the opening bracket already consumed. -/
def parseJsonArrBody (fuel : Nat) (cs : List Char) : Option (Json × List Char) :=
  match fuel with
  | 0 => none
  | fuel + 1 =>
    match skipWs cs with
    | [] => none
    | c :: rest =>
      if c = ']' then some (Json.arr [], rest)
      else parseJsonItems fuel [] (c :: rest)

/-- Parse one or more array items followed by `]`. -/
def parseJsonItems (fuel : Nat) (acc : List Json) (cs : List Char) :
    Option (Json × List Char) :=
  match fuel with
  | 0 => none
  | fuel + 1 =>
    match parseJsonValue fuel cs with
    | none => none
    | some (v, rest) =>
      match skipWs rest with
      | ',' :: rest2 => parseJsonItems fuel (acc ++ [v]) rest2
      | ']' :: rest2 => some (Json.arr (acc ++ [v]), rest2)
      | _ => none

end

/-- `JSON.parse`: parse a complete JSON text (trailing whitespace allowed,
nothing else may follow). -/
def jsonParse (s : String) : Option Json :=
  match parseJsonValue (s.toList.length + 2) s.toList with
  | some (j, rest) => if skipWs rest = [] then some j else none
  | none => none

/-- Property lookup on a parsed JSON value: for an object, the value of the
key (`JSON.parse` keeps the last of duplicate keys); `undefined` (here `none`)
for a missing key or a non-object. -/
def jsObjGet (j : Json) (key : String) : Option Json :=
  match j with
  | .obj fields => ((fields.reverse.find? fun kv => kv.1 == key).map fun kv => kv.2)
  | _ => none

/-- `result.ppl` as used by line 85: the `ppl` property must be a string for
the `.replace` chain to run; a missing or non-string property makes
`result.ppl.replace` throw a TypeError. -/
def getPplString (j : Json) : Option String :=
  match jsObjGet j "ppl" with
  | some (.str s) => some s
  | _ => none

/-- Lowercase hexadecimal digit. -/
def hexDigit (n : Nat) : Char :=
  if n < 10 then Char.ofNat (48 + n) else Char.ofNat (87 + n)

/-- Escaping of one character under `JSON.stringify`. -/
def jsonEscapeChar (c : Char) : List Char :=
  if c = '"' then ['\\', '"']
  else if c = '\\' then ['\\', '\\']
  else if c = Char.ofNat 8 then ['\\', 'b']
  else if c = '\t' then ['\\', 't']
  else if c = '\n' then ['\\', 'n']
  else if c = Char.ofNat 12 then ['\\', 'f']
  else if c = '\r' then ['\\', 'r']
  else if c.toNat < 32 then
    ['\\', 'u', '0', '0', hexDigit (c.toNat / 16), hexDigit (c.toNat % 16)]
  else [c]

/-- `JSON.stringify` applied to a string value: wrap in double quotes and
escape. (Lone UTF-16 surrogates cannot occur in this model.) -/
def jsonStringifyString (s : String) : String :=
  ('"' :: ((s.toList.map jsonEscapeChar).flatten ++ ['"'])).asString

/-! ## Data model of the two handlers

The downstream envelope (`AgentResponse`, routes.ts lines 29-33), thrown
JavaScript errors, HTTP responses, and a log of the downstream calls a
handler issues. -/

/-- One element of `inference_results[i].output`. -/
structure AgentOutput where
  name : String
  result : Option String
deriving DecidableEq, Repr

/-- One element of `inference_results`. -/
structure InferenceResult where
  output : List AgentOutput
deriving DecidableEq, Repr

/-- The body of the downstream agent-execution response. -/
structure AgentEnvelope where
  inference_results : List InferenceResult
deriving DecidableEq, Repr

/-- A thrown JavaScript error as the catch blocks see it: a message and an
optional `statusCode` property (absent on plain `Error`s). -/
structure JsError where
  statusCode : Option Int
  message : String
deriving DecidableEq, Repr

/-- A plain `new Error(msg)`: no `statusCode` property. -/
def jsError (msg : String) : JsError := ⟨none, msg⟩

/-- `error.statusCode || 500` (routes.ts lines 94, 174): `undefined` and the
falsy number `0` both yield `500`. -/
def statusOr500 (e : JsError) : Int :=
  match e.statusCode with
  | some n => if n = 0 then 500 else n
  | none => 500

/-- A response body: plain text (GENERATE_PPL and all error responses) or the
summarize success object. -/
inductive ResponseBody where
  | text (s : String)
  | summaryBody (summary : String) (suggestedQuestions : List String)
deriving DecidableEq, Repr

structure HttpResponse where
  statusCode : Int
  body : ResponseBody
deriving DecidableEq, Repr

/-- `response.custom({statusCode: error.statusCode || 500, body: error.message})`. -/
def errorResponse (e : JsError) : HttpResponse :=
  ⟨statusOr500 e, .text e.message⟩

/-- A downstream call issued by a handler: an agent execution (with its
parameters, each value a string or, for an absent optional `query`,
`undefined`), an index field-mapping fetch, or a sample-document search. -/
inductive DsCall where
  | agentExecute (agentId : String) (params : List (String × Option String))
  | getMapping (index : String)
  | search (index : String) (size : Nat)
deriving DecidableEq, Repr

/-- JavaScript truthiness test `!x` on a configuration value that is either a
string or `undefined`: `undefined` and the empty string are falsy. -/
def configFalsy (v : Option String) : Bool :=
  match v with
  | none => true
  | some s => s == ""

/-- Falsiness of `inference_results[0].output[0].result` (lines 79, 159-160):
an absent (`undefined`) result and an empty-string result are both falsy. -/
def strFalsy (v : Option String) : Bool :=
  match v with
  | none => true
  | some s => s == ""

/-- `envelope.inference_results[0].output[0].result`. Indexing past the end of
a JavaScript array yields `undefined`, so the subsequent property read throws
a TypeError (messages modelled after V8; no claim depends on their text). -/
def readOutput0Result (env : AgentEnvelope) : Except JsError (Option String) :=
  match env.inference_results with
  | [] => .error (jsError "Cannot read properties of undefined (reading 'output')")
  | ir :: _ =>
    match ir.output with
    | [] => .error (jsError "Cannot read properties of undefined (reading 'result')")
    | o :: _ => .ok o.result

/-! ## GENERATE_PPL handler (routes.ts lines 42-99) -/

/-- The validated body of a generate-query request. -/
structure GenerateRequest where
  index : String
  question : String
deriving DecidableEq, Repr

/-- The fixed 400 body of the generate-query endpoint (lines 60-61). -/
def pplAgentMissingMsg : String :=
  "PPL agent not found in opensearch_dashboards.yml. Expected observability.query_assist.ppl_agent_id"

/-- Modelled message of the SyntaxError thrown by `JSON.parse` on invalid
JSON (engine-specific text; no claim depends on it). -/
def jsonSyntaxErrorMsg : String := "Unexpected token in JSON"

/-- Modelled message of the TypeError thrown by `result.ppl.replace` when the
parsed value has no string `ppl` property (engine-specific text; no claim
depends on it). -/
def pplTypeErrorMsg : String :=
  "Cannot read properties of undefined (reading 'replace')"

/-- Parameters of the agent execution issued by the generate-query handler
(lines 70-75). -/
def generateParams (req : GenerateRequest) : List (String × Option String) :=
  [("index", some req.index), ("question", some req.question)]

/-- The try-block of the generate-query handler given the outcome of the
downstream call (lines 66-91), with the catch block of lines 92-97 applied to
every thrown error. -/
def generateAgentStep (downstream : Except JsError AgentEnvelope) : HttpResponse :=
  match downstream with
  | .error e => errorResponse e
  | .ok env =>
    match readOutput0Result env with
    | .error e => errorResponse e
    | .ok r =>
      if strFalsy r then errorResponse (jsError "Generated PPL query not found.")
      else
        match jsonParse (r.getD "") with
        | none => errorResponse (jsError jsonSyntaxErrorMsg)
        | some j =>
          match getPplString j with
          | none => errorResponse (jsError pplTypeErrorMsg)
          | some ppl => ⟨200, .text (normalizePPLStr ppl)⟩

/-- The generate-query handler: the response it produces and the downstream
calls it issues. `downstream` is the outcome the downstream agent execution
would have (only consumed — and only counted as a call — when the agent id is
configured). -/
def generatePPLHandler (pplAgentId : Option String) (req : GenerateRequest)
    (downstream : Except JsError AgentEnvelope) : HttpResponse × List DsCall :=
  if configFalsy pplAgentId then
    (⟨400, .text pplAgentMissingMsg⟩, [])
  else
    (generateAgentStep downstream,
     [DsCall.agentExecute (pplAgentId.getD "") (generateParams req)])

/-! ## SUMMARIZE handler (routes.ts lines 101-179) -/

/-- The validated body of a summarize request (lines 105-111). -/
structure SummarizeBody where
  index : String
  question : String
  query : Option String
  response : String
  isError : Bool
deriving DecidableEq, Repr

/-- The body schema of the summarize route,
`schema.object({index: schema.string(), question: schema.string(),
query: schema.maybe(schema.string()), response: schema.string(),
isError: schema.boolean()})` of `@osd/config-schema`: each declared field must
have exactly the declared type (strings are not coerced from other values),
`query` may be absent, and keys outside the schema are rejected (the
library's default for objects). -/
def validateSummarizeBody (j : Json) : Option SummarizeBody :=
  match j with
  | .obj fields =>
    let get : String → Option Json := fun k =>
      ((fields.reverse.find? fun kv => kv.1 == k).map fun kv => kv.2)
    if fields.all fun kv =>
        kv.1 == "index" ∨ kv.1 == "question" ∨ kv.1 == "query" ∨
        kv.1 == "response" ∨ kv.1 == "isError" then
      match get "index", get "question", get "response", get "isError" with
      | some (.str i), some (.str q), some (.str r), some (.bool e) =>
        match get "query" with
        | none => some ⟨i, q, none, r, e⟩
        | some (.str qq) => some ⟨i, q, some qq, r, e⟩
        | some _ => none
      | _, _, _, _ => none
    else none
  | _ => none

/-- The fixed 400 body of the summarize endpoint (lines 122-123). -/
def summaryAgentMissingMsg : String :=
  "Summary agent not found in opensearch_dashboards.yml. Expected observability.query_assist.response_summary_agent_id and observability.query_assist.error_summary_agent_id"

/-- Parameters of the response-summary agent execution (line 137):
`{index, question, query, response: queryResponse}`; an absent optional
`query` is the `undefined` property value. -/
def responseSummaryParams (b : SummarizeBody) (queryResponse : String) :
    List (String × Option String) :=
  [("index", some b.index), ("question", some b.question),
   ("query", b.query), ("response", some queryResponse)]

/-- Parameters of the error-summary agent execution (line 153): the same plus
`fields`. -/
def errorSummaryParams (b : SummarizeBody) (queryResponse fields : String) :
    List (String × Option String) :=
  [("index", some b.index), ("question", some b.question),
   ("query", b.query), ("response", some queryResponse),
   ("fields", some fields)]

/-- `"<question>".toList` (10 characters). -/
def openTagL : List Char := "<question>".toList

/-- `"</question>".toList` (11 characters). -/
def closeTagL : List Char := "</question>".toList

/-- Split at the first occurrence of `</question>`: the content before it and
the remainder after it, or `none` when the tag does not occur. -/
def splitAtCloseTag : List Char → Option (List Char × List Char)
  | [] => none
  | c :: rest =>
    if closeTagL.isPrefixOf (c :: rest) then some ([], (c :: rest).drop 11)
    else
      match splitAtCloseTag rest with
      | some (content, after) => some (c :: content, after)
      | none => none

/-- `matchAll` with `/<question>((.|[\r\n])+?)<\/question>/g` (lines 161-165),
collecting capture group 1 of each match: scan left to right; at each
occurrence of `<question>` the lazy group takes the shortest non-empty content
(`(.|[\r\n])` accepts every character) ending at the next `</question>`;
when no closing tag follows, the attempt fails and scanning resumes one
character later; after a match, scanning resumes after the closing tag.
`fuel` bounds the scan and is initialised to the string length, which
suffices because every recursive call consumes at least one character. -/
def extractQuestionsAux (fuel : Nat) (s : List Char) : List String :=
  match fuel with
  | 0 => []
  | fuel + 1 =>
    match s with
    | [] => []
    | c :: rest =>
      if openTagL.isPrefixOf (c :: rest) then
        match (c :: rest).drop 10 with
        | [] => []
        | d :: afterFirst =>
          match splitAtCloseTag afterFirst with
          | some (content, after) =>
            (d :: content).asString :: extractQuestionsAux fuel after
          | none => extractQuestionsAux fuel rest
      else extractQuestionsAux fuel rest

/-- The `suggestedQuestions` extraction applied to a whole string. -/
def extractQuestions (s : String) : List String :=
  extractQuestionsAux s.toList.length s.toList

/-- `inference_results[0].output[1]?.result || ''` (line 162) for the first
inference result: optional chaining turns a missing element into `undefined`,
and `|| ''` turns `undefined` (or an empty-string result) into `''`. -/
def output1ResultOrEmpty (ir : InferenceResult) : String :=
  match ir.output.drop 1 with
  | [] => ""
  | o :: _ => o.result.getD ""

/-- Lines 159-171 given the outcome of the chosen agent execution: read the
summary (`output[0].result`), fail when it is falsy, extract the suggested
questions from `output[1]`, and return the success body; the catch block of
lines 172-177 is applied to every thrown error. -/
def summarizeAgentStep (agent : Except JsError AgentEnvelope) : HttpResponse :=
  match agent with
  | .error e => errorResponse e
  | .ok env =>
    match env.inference_results with
    | [] => errorResponse (jsError "Cannot read properties of undefined (reading 'output')")
    | ir :: _ =>
      match ir.output with
      | [] => errorResponse (jsError "Cannot read properties of undefined (reading 'result')")
      | o :: _ =>
        if strFalsy o.result then
          errorResponse (jsError "Generated summary not found.")
        else
          ⟨200, .summaryBody (o.result.getD "")
            (extractQuestions (output1ResultOrEmpty ir))⟩

/-- The summarize handler: the response it produces and the downstream calls
it issues. `generateFieldContext` stands for the helper imported from
`generate_field_context` (outside this module); `mappings` and `sampleDoc`
are the outcomes the two fetches of the error branch would have (only
consumed — and only counted as calls — on that branch), and `agent` the
outcome of the chosen agent execution. A failed fetch rejects the
`Promise.all` of line 143 — with the first rejection in array order — before
any agent call. -/
def summarizeHandler (responseSummaryAgentId errorSummaryAgentId : Option String)
    (generateFieldContext : String → String → String)
    (b : SummarizeBody)
    (mappings : Except JsError String) (sampleDoc : Except JsError String)
    (agent : Except JsError AgentEnvelope) : HttpResponse × List DsCall :=
  if configFalsy responseSummaryAgentId ∨ configFalsy errorSummaryAgentId then
    (⟨400, .text summaryAgentMissingMsg⟩, [])
  else
    let queryResponse := jsonStringifyString b.response
    if !b.isError then
      (summarizeAgentStep agent,
       [DsCall.agentExecute (responseSummaryAgentId.getD "")
          (responseSummaryParams b queryResponse)])
    else
      let fetchCalls := [DsCall.getMapping b.index, DsCall.search b.index 1]
      match mappings, sampleDoc with
      | .error e, _ => (errorResponse e, fetchCalls)
      | .ok _, .error e => (errorResponse e, fetchCalls)
      | .ok m, .ok d =>
        (summarizeAgentStep agent,
         fetchCalls ++
           [DsCall.agentExecute (errorSummaryAgentId.getD "")
              (errorSummaryParams b queryResponse (generateFieldContext m d))])

/-! ## Concrete fixtures used by the claims -/

/-- The downstream result text of claim C1: the JSON text
`{"ppl": "source \r\n with SPAN(x) and backtick ticks backtick and
ISNOTNULL(y)"}`, whose `\r\n` escapes decode to an actual carriage return and
line feed. -/
def c1ResultJson : String :=
  "\x7b\"ppl\": \"source \\r\\n with SPAN(x) and `ticks` and ISNOTNULL(y)\"\x7d"

/-- A downstream envelope whose `inference_results[0].output[0].result` is
`c1ResultJson`. -/
def c1Envelope : AgentEnvelope := ⟨[⟨[⟨"response", some c1ResultJson⟩]⟩]⟩

/-- What the C1 pipeline actually produces: space, CR, LF, space each become
one space, so four spaces separate `source` and `with`. -/
def c1ActualBody : String := "source    with span(x) and ticks and isnotnull(y)"

/-- The body claim C1 expects (two spaces between `source` and `with`). -/
def c1ClaimedBody : String := "source  with span(x) and ticks and isnotnull(y)"

/-- ASCII lowercasing, to state case-insensitive containment. -/
def lowerAscii (c : Char) : Char :=
  if 'A' ≤ c ∧ c ≤ 'Z' then Char.ofNat (c.toNat + 32) else c

/-- Substring containment (contiguous). -/
def containsSub (p : List Char) : List Char → Bool
  | [] => p.isEmpty
  | c :: rest => p.isPrefixOf (c :: rest) || containsSub p rest

/-- Case-insensitive substring containment (both sides ASCII-lowercased). -/
def containsCaseInsensitive (p s : List Char) : Bool :=
  containsSub (p.map lowerAscii) (s.map lowerAscii)

/-- `"ISNOTNULL".toList`, written out. -/
def isnotnullUpper : List Char := ['I', 'S', 'N', 'O', 'T', 'N', 'U', 'L', 'L']

/-- `"isnotnull".toList`, written out. -/
def isnotnullLower : List Char := ['i', 's', 'n', 'o', 't', 'n', 'u', 'l', 'l']

/-- The `output[1].result` of claim C7. -/
def c7QuestionsText : String :=
  "<question>A?</question> junk <question>B?</question>"

/-- An envelope whose first output is a summary and whose second output holds
`c7QuestionsText`. -/
def c7EnvWithQuestions : AgentEnvelope :=
  ⟨[⟨[⟨"o0", some "SUM"⟩, ⟨"o1", some c7QuestionsText⟩]⟩]⟩

/-- An envelope with a summary and no `output[1]`. -/
def c7EnvNoOutput1 : AgentEnvelope := ⟨[⟨[⟨"o0", some "SUM"⟩]⟩]⟩

/-- Two adjacent empty `<question></question>` pairs (claim C10). -/
def doubleEmptyTagsText : String :=
  "<question></question><question></question>"

/-- The capture the lazy pattern actually produces on
`doubleEmptyTagsText`: the group must hold at least one character, so it
swallows the first closing tag and the second opening tag. -/
def crossPairCapture : String := "</question><question>"

/-- A summarize request body whose `response` field is a JSON-serializable
non-string value (an object), used against claim C3. -/
def c3NonStringBody : Json :=
  .obj [("index", .str "i"), ("question", .str "q"),
        ("response", .obj [("took", .num "5")]), ("isError", .bool false)]

/-- The same body with a string `response`, which the schema does accept. -/
def c3StringBody : Json :=
  .obj [("index", .str "i"), ("question", .str "q"),
        ("response", .str "ok"), ("isError", .bool false)]

end QueryAssist

namespace QueryAssist

/-! ## Shared helper lemmas -/

lemma configFalsy_some_ne (s : String) (h : s ≠ "") :
    configFalsy (some s) = false := by
  simp [configFalsy, h]

/-- With a configured agent, the generate-query response is that of the
try/catch body. -/
lemma generatePPLHandler_fst (pid : String) (hp : pid ≠ "")
    (req : GenerateRequest) (ds : Except JsError AgentEnvelope) :
    (generatePPLHandler (some pid) req ds).1 = generateAgentStep ds := by
  unfold generatePPLHandler
  rw [if_neg (by simp [configFalsy_some_ne pid hp])]

/-- With configured agents and `isError: false`, the summarize response is
that of the agent step on the response-summary call's outcome. -/
lemma summarizeHandler_fst_response_branch (rid eid : String)
    (hr : rid ≠ "") (he : eid ≠ "") (fcx : String → String → String)
    (i q r : String) (qq : Option String)
    (mp sd : Except JsError String) (ag : Except JsError AgentEnvelope) :
    (summarizeHandler (some rid) (some eid) fcx ⟨i, q, qq, r, false⟩
        mp sd ag).1 = summarizeAgentStep ag := by
  unfold summarizeHandler
  rw [if_neg (by simp [configFalsy_some_ne rid hr, configFalsy_some_ne eid he])]
  rfl

/-- With configured agents, `isError: true` and both fetches succeeding, the
summarize response is that of the agent step on the error-summary call's
outcome. -/
lemma summarizeHandler_fst_error_branch (rid eid : String)
    (hr : rid ≠ "") (he : eid ≠ "") (fcx : String → String → String)
    (i q r : String) (qq : Option String) (mp sd : String)
    (ag : Except JsError AgentEnvelope) :
    (summarizeHandler (some rid) (some eid) fcx ⟨i, q, qq, r, true⟩
        (.ok mp) (.ok sd) ag).1 = summarizeAgentStep ag := by
  unfold summarizeHandler
  rw [if_neg (by simp [configFalsy_some_ne rid hr, configFalsy_some_ne eid he])]
  rfl

/-- Full characterization of the downstream calls the summarize handler
issues (configured agents): the response branch performs exactly one agent
execution and no fetch; the error branch performs the mapping fetch and the
size-1 sample search, then — when both succeed — exactly one agent execution
carrying the derived `fields`. -/
lemma summarizeHandler_snd (rid eid : String) (hr : rid ≠ "") (he : eid ≠ "")
    (fcx : String → String → String) (b : SummarizeBody)
    (mp sd : Except JsError String) (ag : Except JsError AgentEnvelope) :
    (summarizeHandler (some rid) (some eid) fcx b mp sd ag).2 =
      if b.isError then
        [DsCall.getMapping b.index, DsCall.search b.index 1] ++
          (match mp, sd with
           | .ok m, .ok d =>
             [DsCall.agentExecute eid
                (errorSummaryParams b (jsonStringifyString b.response) (fcx m d))]
           | _, _ => [])
      else
        [DsCall.agentExecute rid
           (responseSummaryParams b (jsonStringifyString b.response))] := by
  rcases b with ⟨i, q, qq, r, ie⟩
  unfold summarizeHandler
  rw [if_neg (by simp [configFalsy_some_ne rid hr, configFalsy_some_ne eid he])]
  cases ie
  · rfl
  · rcases mp with e | m <;> rcases sd with e2 | d <;> rfl

/-! ### Lemmas on `containsSub` and `replaceLitGo` for the ISNOTNULL claim -/

lemma nil_isPrefixOf_eq_true (l : List Char) :
    ([] : List Char).isPrefixOf l = true := by
  cases l <;> rfl

lemma cons_isPrefixOf_cons_eq (x c : Char) (pt l : List Char) :
    (x :: pt).isPrefixOf (c :: l) = (x == c && pt.isPrefixOf l) := rfl

/-- One evaluation step of the replacement scanner at `skip = 0` on a
non-empty input. -/
lemma replaceLitGo_zero_cons_eq (p r : List Char) (c : Char) (rest : List Char) :
    replaceLitGo p r 0 (c :: rest) =
      if p ≠ [] ∧ p.isPrefixOf (c :: rest) then
        r ++ replaceLitGo p r (p.length - 1) rest
      else c :: replaceLitGo p r 0 rest := rfl

lemma containsSub_nil (l : List Char) : containsSub [] l = true := by
  cases l <;> rfl

/-- A character that cannot start the pattern may be skipped. -/
lemma containsSub_cons_ne_first (p : List Char) (c : Char) (l : List Char)
    (h : p.head? ≠ some c) : containsSub p (c :: l) = containsSub p l := by
  match p with
  | [] => rw [containsSub_nil, containsSub_nil]
  | x :: pt =>
    have hx : x ≠ c := by simpa using h
    show ((x :: pt).isPrefixOf (c :: l) || containsSub (x :: pt) l) = _
    rw [cons_isPrefixOf_cons_eq, beq_eq_false_iff_ne.mpr hx, Bool.false_and,
      Bool.false_or]

/-- The all-lowercase replacement cannot start the all-uppercase pattern, so
prepending it does not create an occurrence. -/
lemma containsSub_upper_append_lower (X : List Char) :
    containsSub isnotnullUpper (isnotnullLower ++ X) =
      containsSub isnotnullUpper X := by
  show containsSub isnotnullUpper
    ('i' :: 's' :: 'n' :: 'o' :: 't' :: 'n' :: 'u' :: 'l' :: 'l' :: X) = _
  rw [containsSub_cons_ne_first isnotnullUpper 'i' _ (by decide),
    containsSub_cons_ne_first isnotnullUpper 's' _ (by decide),
    containsSub_cons_ne_first isnotnullUpper 'n' _ (by decide),
    containsSub_cons_ne_first isnotnullUpper 'o' _ (by decide),
    containsSub_cons_ne_first isnotnullUpper 't' _ (by decide),
    containsSub_cons_ne_first isnotnullUpper 'n' _ (by decide),
    containsSub_cons_ne_first isnotnullUpper 'u' _ (by decide),
    containsSub_cons_ne_first isnotnullUpper 'l' _ (by decide),
    containsSub_cons_ne_first isnotnullUpper 'l' _ (by decide)]

/-- A prefix of the scanner's output that shares no character with the
replacement is a prefix of the scanner's input. -/
lemma prefix_through_replaceLitGo :
    ∀ (s Q : List Char), (∀ c ∈ Q, c ∉ isnotnullLower) →
      Q.isPrefixOf (replaceLitGo isnotnullUpper isnotnullLower 0 s) = true →
      Q.isPrefixOf s = true := by
  intro s
  induction s with
  | nil =>
    intro Q hQ h
    cases Q with
    | nil => rfl
    | cons q Q2 => exact Bool.noConfusion h
  | cons c rest ih =>
    intro Q hQ h
    by_cases hp : isnotnullUpper ≠ [] ∧ isnotnullUpper.isPrefixOf (c :: rest)
    · rw [replaceLitGo_zero_cons_eq, if_pos hp] at h
      cases Q with
      | nil => exact nil_isPrefixOf_eq_true _
      | cons q Q2 =>
        generalize replaceLitGo isnotnullUpper isnotnullLower
          (isnotnullUpper.length - 1) rest = Z at h
        rw [show isnotnullLower ++ Z =
            'i' :: ('s' :: 'n' :: 'o' :: 't' :: 'n' :: 'u' :: 'l' :: 'l' :: Z)
            from rfl, cons_isPrefixOf_cons_eq] at h
        rw [Bool.and_eq_true] at h
        have hq : q = 'i' := beq_iff_eq.mp h.1
        exact absurd (show q ∈ isnotnullLower by rw [hq]; decide)
          (hQ q (List.mem_cons_self q Q2))
    · rw [replaceLitGo_zero_cons_eq, if_neg hp] at h
      cases Q with
      | nil => exact nil_isPrefixOf_eq_true _
      | cons q Q2 =>
        rw [cons_isPrefixOf_cons_eq, Bool.and_eq_true] at h
        obtain ⟨h1, h2⟩ := h
        have h3 := ih Q2 (fun cc hcc => hQ cc (List.mem_cons_of_mem q hcc)) h2
        rw [cons_isPrefixOf_cons_eq, h1, h3]
        rfl

/-- After the ISNOTNULL→isnotnull replacement scan no occurrence of the
exact-case pattern remains, from any scanner state. -/
lemma no_upper_in_replaceLitGo :
    ∀ (s : List Char) (skip : Nat),
      containsSub isnotnullUpper
        (replaceLitGo isnotnullUpper isnotnullLower skip s) = false := by
  intro s
  induction s with
  | nil => intro skip; cases skip <;> rfl
  | cons c rest ih =>
    intro skip
    cases skip with
    | succ k => exact ih k
    | zero =>
      by_cases hp : isnotnullUpper ≠ [] ∧ isnotnullUpper.isPrefixOf (c :: rest)
      · rw [replaceLitGo_zero_cons_eq, if_pos hp,
          containsSub_upper_append_lower]
        exact ih (isnotnullUpper.length - 1)
      · rw [replaceLitGo_zero_cons_eq, if_neg hp]
        show (isnotnullUpper.isPrefixOf
            (c :: replaceLitGo isnotnullUpper isnotnullLower 0 rest) ||
          containsSub isnotnullUpper
            (replaceLitGo isnotnullUpper isnotnullLower 0 rest)) = false
        rw [ih 0, Bool.or_false]
        cases hpre : isnotnullUpper.isPrefixOf
            (c :: replaceLitGo isnotnullUpper isnotnullLower 0 rest) with
        | false => rfl
        | true =>
          exfalso
          rw [show isnotnullUpper.isPrefixOf
                (c :: replaceLitGo isnotnullUpper isnotnullLower 0 rest) =
              ('I' == c &&
                (['S', 'N', 'O', 'T', 'N', 'U', 'L', 'L'] : List Char).isPrefixOf
                  (replaceLitGo isnotnullUpper isnotnullLower 0 rest))
              from rfl] at hpre
          rw [Bool.and_eq_true] at hpre
          obtain ⟨h1, h2⟩ := hpre
          have h3 : (['S', 'N', 'O', 'T', 'N', 'U', 'L', 'L'] :
              List Char).isPrefixOf rest = true :=
            prefix_through_replaceLitGo rest _ (by decide) h2
          apply hp
          refine ⟨by decide, ?_⟩
          rw [show isnotnullUpper.isPrefixOf (c :: rest) =
              ('I' == c &&
                (['S', 'N', 'O', 'T', 'N', 'U', 'L', 'L'] : List Char).isPrefixOf
                  rest) from rfl, h1, h3]
          rfl

/-! ## Claims -/

/-- C1 (counterexample): on the request of claim C1 the handler returns
status 200, but the body has four spaces between `source` and `with` — one
for each of the original space, CR, LF, space characters — not the two spaces
the claim states, so the claimed body differs from the actual one. -/
theorem c1_generate_body_counterexample :
    (generatePPLHandler (some "agentA") ⟨"my-index", "my question"⟩
        (.ok c1Envelope)).1 = ⟨200, .text c1ActualBody⟩ ∧
    c1ActualBody ≠ c1ClaimedBody := by
  exact ⟨by decide, by decide⟩

/-- C1 (amended): for every request and configured PPL agent, when the
downstream result is the JSON text of claim C1, the handler returns status
200 with body `"source    with span(x) and ticks and isnotnull(y)"` — four
spaces between `source` and `with`, since each of space, CR, LF, space
becomes one space. -/
theorem c1_generate_body_amended (pid idx q : String) (h : pid ≠ "") :
    generatePPLHandler (some pid) ⟨idx, q⟩ (.ok c1Envelope) =
      (⟨200, .text c1ActualBody⟩,
       [DsCall.agentExecute pid [("index", some idx), ("question", some q)]]) := by
  unfold generatePPLHandler
  rw [if_neg (by simp [configFalsy_some_ne pid h])]
  have h1 : generateAgentStep (.ok c1Envelope) = ⟨200, .text c1ActualBody⟩ := by
    decide
  rw [h1]
  rfl

/-- C1 witness: the amended theorem applied at a concrete request. -/
theorem c1_generate_body_amended_witness :
    generatePPLHandler (some "agentA") ⟨"my-index", "my question"⟩
        (.ok c1Envelope) =
      (⟨200, .text c1ActualBody⟩,
       [DsCall.agentExecute "agentA"
          [("index", some "my-index"), ("question", some "my question")]]) :=
  c1_generate_body_amended "agentA" "my-index" "my question" (by decide)

/-- C2 (counterexample): the ISNOTNULL rewrite is not case-insensitive — on
the ppl string `"IsNotNull(a)"` the normalization is the identity, so the
returned body contains an occurrence of ISNOTNULL in a non-trivial letter
casing (witnessed case-insensitively) that is not `isnotnull`. -/
theorem c2_isnotnull_case_counterexample :
    normalizePPLStr "IsNotNull(a)" = "IsNotNull(a)" ∧
    containsCaseInsensitive "isnotnull".toList "IsNotNull(a)".toList = true ∧
    containsSub "isnotnull".toList
      (normalizePPLStr "IsNotNull(a)").toList = false := by
  exact ⟨by decide, by decide, by decide⟩

/-- C2 (amended): the rewrite is case-sensitive and complete for the exact
uppercase token: for every input string, after the `ISNOTNULL`→`isnotnull`
replacement step (applied to the newline-collapsed, trimmed ppl string) no
occurrence of the exact-case token `ISNOTNULL` remains; occurrences in other
letter casings are left unchanged. -/
theorem c2_isnotnull_rewrite_case_sensitive_amended (s : List Char) :
    containsSub "ISNOTNULL".toList
      (replaceAllLit "ISNOTNULL".toList "isnotnull".toList
        (trimJs (collapseCRLF s))) = false := by
  have h1 : "ISNOTNULL".toList = isnotnullUpper := by decide
  have h2 : "isnotnull".toList = isnotnullLower := by decide
  rw [h1, h2]
  exact no_upper_in_replaceLitGo (trimJs (collapseCRLF s)) 0

/-- C4: with no PPL agent configured the generate-query handler returns
status 400 with the fixed explanatory message and issues no downstream call,
whatever the request and whatever the downstream would have answered. -/
theorem c4_generate_missing_agent_400 (req : GenerateRequest)
    (downstream : Except JsError AgentEnvelope) :
    generatePPLHandler none req downstream =
      (⟨400, .text pplAgentMissingMsg⟩, []) := rfl

/-- C5 (counterexample): an exception carrying `statusCode: 0` — a present
status code — is mapped to status 500, not to its carried status code,
because `error.statusCode || 500` treats the number 0 as falsy. -/
theorem c5_status_zero_counterexample :
    (generatePPLHandler (some "agentA") ⟨"i", "q"⟩
        (.error ⟨some 0, "boom"⟩)).1 = ⟨500, .text "boom"⟩ ∧
    (500 : Int) ≠ 0 := ⟨rfl, by decide⟩

/-- C5 (amended): in both handlers, an exception thrown by the downstream
agent call — and, for the summarize error branch, by the mapping fetch — is
caught and mapped to a response whose status is the exception's carried
status code when that code is present and non-zero (truthy), else 500, and
whose body is the exception's message. -/
theorem c5_error_mapping_amended (pid rid eid : String)
    (hp : pid ≠ "") (hr : rid ≠ "") (he : eid ≠ "")
    (req : GenerateRequest) (b : SummarizeBody)
    (fcx : String → String → String) (m d : String)
    (i2 q2 r2 : String) (qq2 : Option String)
    (sd2 : Except JsError String) (ag2 : Except JsError AgentEnvelope)
    (e : JsError) :
    (generatePPLHandler (some pid) req (.error e)).1 =
      ⟨(match e.statusCode with
        | some n => if n = 0 then 500 else n
        | none => 500), .text e.message⟩ ∧
    (summarizeHandler (some rid) (some eid) fcx b (.ok m) (.ok d)
        (.error e)).1 =
      ⟨(match e.statusCode with
        | some n => if n = 0 then 500 else n
        | none => 500), .text e.message⟩ ∧
    (summarizeHandler (some rid) (some eid) fcx ⟨i2, q2, qq2, r2, true⟩
        (.error e) sd2 ag2).1 =
      ⟨(match e.statusCode with
        | some n => if n = 0 then 500 else n
        | none => 500), .text e.message⟩ := by
  refine ⟨?_, ?_, ?_⟩
  · unfold generatePPLHandler
    rw [if_neg (by simp [configFalsy_some_ne pid hp])]
    rfl
  · unfold summarizeHandler
    rw [if_neg (by simp [configFalsy_some_ne rid hr, configFalsy_some_ne eid he])]
    rcases b with ⟨i, q, qq, r, ie⟩
    cases ie <;> rfl
  · unfold summarizeHandler
    rw [if_neg (by simp [configFalsy_some_ne rid hr, configFalsy_some_ne eid he])]
    rfl

/-- C5 witness: the amended theorem at a downstream error carrying
`statusCode: 503` — both endpoints answer 503 with the error's message. -/
theorem c5_error_mapping_witness :
    (generatePPLHandler (some "agentA") ⟨"i", "q"⟩
        (.error ⟨some 503, "Service Unavailable"⟩)).1 =
      ⟨503, .text "Service Unavailable"⟩ ∧
    (summarizeHandler (some "agentR") (some "agentE") (fun _ _ => "")
        ⟨"i", "q", none, "resp", false⟩ (.ok "m") (.ok "d")
        (.error ⟨some 503, "Service Unavailable"⟩)).1 =
      ⟨503, .text "Service Unavailable"⟩ := by
  have h := c5_error_mapping_amended "agentA" "agentR" "agentE"
    (by decide) (by decide) (by decide) ⟨"i", "q"⟩
    ⟨"i", "q", none, "resp", false⟩ (fun _ _ => "") "m" "d"
    "i" "q" "resp" none (.ok "d") (.ok ⟨[]⟩) ⟨some 503, "Service Unavailable"⟩
  exact ⟨h.1, h.2.1⟩

/-- C6: with a configured PPL agent, a downstream envelope whose
`inference_results[0].output[0]` exists but carries no `result` makes the
generate-query handler answer 500 with body exactly
`"Generated PPL query not found."`. -/
theorem c6_generate_missing_result_500 (pid : String) (hp : pid ≠ "")
    (req : GenerateRequest) (nm : String) (outs : List AgentOutput)
    (irs : List InferenceResult) :
    (generatePPLHandler (some pid) req
        (.ok ⟨⟨⟨nm, none⟩ :: outs⟩ :: irs⟩)).1 =
      ⟨500, .text "Generated PPL query not found."⟩ := by
  unfold generatePPLHandler
  rw [if_neg (by simp [configFalsy_some_ne pid hp])]
  rfl

/-- C6 witness: the theorem at a concrete request and envelope. -/
theorem c6_generate_missing_result_500_witness :
    (generatePPLHandler (some "agentA") ⟨"i", "q"⟩
        (.ok ⟨[⟨[⟨"response", none⟩]⟩]⟩)).1 =
      ⟨500, .text "Generated PPL query not found."⟩ :=
  c6_generate_missing_result_500 "agentA" (by decide) ⟨"i", "q"⟩
    "response" [] []

/-- C7: for every successful summarize request (configured agents, success
branch), the envelope of claim C7 yields status 200 with
`suggestedQuestions = ["A?", "B?"]` — the ordered inner texts of the
non-overlapping tag matches — and an envelope with no `output[1]` yields
`suggestedQuestions = []`, not an error. -/
theorem c7_suggested_questions (rid eid i q r : String) (qq : Option String)
    (hr : rid ≠ "") (he : eid ≠ "") (fcx : String → String → String)
    (mp sd : Except JsError String) :
    (summarizeHandler (some rid) (some eid) fcx ⟨i, q, qq, r, false⟩ mp sd
        (.ok c7EnvWithQuestions)).1 =
      ⟨200, .summaryBody "SUM" ["A?", "B?"]⟩ ∧
    (summarizeHandler (some rid) (some eid) fcx ⟨i, q, qq, r, false⟩ mp sd
        (.ok c7EnvNoOutput1)).1 =
      ⟨200, .summaryBody "SUM" []⟩ := by
  refine ⟨?_, ?_⟩
  · rw [summarizeHandler_fst_response_branch rid eid hr he fcx i q r qq mp sd]
    decide
  · rw [summarizeHandler_fst_response_branch rid eid hr he fcx i q r qq mp sd]
    decide

/-- C7 witness: the theorem at a concrete request. -/
theorem c7_suggested_questions_witness :
    (summarizeHandler (some "agentR") (some "agentE") (fun _ _ => "")
        ⟨"i", "q", none, "resp", false⟩ (.ok "m") (.ok "d")
        (.ok c7EnvWithQuestions)).1 =
      ⟨200, .summaryBody "SUM" ["A?", "B?"]⟩ :=
  (c7_suggested_questions "agentR" "agentE" "i" "q" "resp" none
    (by decide) (by decide) (fun _ _ => "") (.ok "m") (.ok "d")).1

/-- C9: an empty-string `inference_results[0].output[0].result` takes the
same path as an absent one, because the check tests falsiness: the
generate-query handler answers 500 `"Generated PPL query not found."` and the
summarize handler answers 500 `"Generated summary not found."`. -/
theorem c9_empty_result_is_missing (pid rid eid : String)
    (hp : pid ≠ "") (hr : rid ≠ "") (he : eid ≠ "")
    (req : GenerateRequest) (b : SummarizeBody)
    (fcx : String → String → String) (mp sd : String)
    (nm nm2 : String) (outs outs2 : List AgentOutput)
    (irs irs2 : List InferenceResult) :
    (generatePPLHandler (some pid) req
        (.ok ⟨⟨⟨nm, some ""⟩ :: outs⟩ :: irs⟩)).1 =
      ⟨500, .text "Generated PPL query not found."⟩ ∧
    (summarizeHandler (some rid) (some eid) fcx b (.ok mp) (.ok sd)
        (.ok ⟨⟨⟨nm2, some ""⟩ :: outs2⟩ :: irs2⟩)).1 =
      ⟨500, .text "Generated summary not found."⟩ := by
  constructor
  · unfold generatePPLHandler
    rw [if_neg (by simp [configFalsy_some_ne pid hp])]
    rfl
  · unfold summarizeHandler
    rw [if_neg (by simp [configFalsy_some_ne rid hr, configFalsy_some_ne eid he])]
    rcases b with ⟨i, q, qq, r, ie⟩
    cases ie <;> rfl

/-- C9 witness: the theorem at a concrete request, envelope and agents. -/
theorem c9_empty_result_is_missing_witness :
    (generatePPLHandler (some "agentA") ⟨"i", "q"⟩
        (.ok ⟨[⟨[⟨"o0", some ""⟩]⟩]⟩)).1 =
      ⟨500, .text "Generated PPL query not found."⟩ ∧
    (summarizeHandler (some "agentR") (some "agentE") (fun _ _ => "")
        ⟨"i", "q", none, "resp", false⟩ (.ok "m") (.ok "d")
        (.ok ⟨[⟨[⟨"o0", some ""⟩]⟩]⟩)).1 =
      ⟨500, .text "Generated summary not found."⟩ :=
  c9_empty_result_is_missing "agentA" "agentR" "agentE"
    (by decide) (by decide) (by decide) ⟨"i", "q"⟩
    ⟨"i", "q", none, "resp", false⟩ (fun _ _ => "") "m" "d"
    "o0" "o0" [] [] [] []

/-- C10 (counterexample): an `output[1].result` consisting only of
empty-content question tag pairs can still produce a suggestion — on two
adjacent empty pairs the lazy group, which must hold at least one character,
matches across the pair boundary and captures `"</question><question>"`, so
`suggestedQuestions` is not the empty sequence. -/
theorem c10_empty_tags_counterexample :
    (summarizeHandler (some "agentR") (some "agentE") (fun _ _ => "")
        ⟨"i", "q", none, "resp", false⟩ (.ok "m") (.ok "d")
        (.ok ⟨[⟨[⟨"o0", some "SUM"⟩, ⟨"o1", some doubleEmptyTagsText⟩]⟩]⟩)).1 =
      ⟨200, .summaryBody "SUM" [crossPairCapture]⟩ ∧
    ([crossPairCapture] : List String) ≠ [] := ⟨by decide, by decide⟩

/-- C10 (amended): a single empty-content `<question></question>` pair
contributes no element — the pattern needs at least one character of content
— so an `output[1].result` consisting of exactly one empty pair yields an
empty `suggestedQuestions`; with several empty pairs the group may instead
match across pair boundaries. -/
theorem c10_single_empty_tag_amended (rid eid i q r : String)
    (qq : Option String) (hr : rid ≠ "") (he : eid ≠ "")
    (fcx : String → String → String) (mp sd : Except JsError String) :
    (summarizeHandler (some rid) (some eid) fcx ⟨i, q, qq, r, false⟩ mp sd
        (.ok ⟨[⟨[⟨"o0", some "SUM"⟩,
                 ⟨"o1", some "<question></question>"⟩]⟩]⟩)).1 =
      ⟨200, .summaryBody "SUM" []⟩ := by
  rw [summarizeHandler_fst_response_branch rid eid hr he fcx i q r qq mp sd]
  decide

/-- C3 (counterexample): the summarize body schema does not accept an
arbitrary JSON-serializable `response` — a body whose `response` is an object
is rejected by `schema.string()`, while the same body with a string
`response` is accepted. -/
theorem c3_schema_rejects_nonstring_counterexample :
    validateSummarizeBody c3NonStringBody = none ∧
    validateSummarizeBody c3StringBody =
      some ⟨"i", "q", none, "ok", false⟩ := ⟨rfl, rfl⟩

/-- C3 (amended): the summarize endpoint accepts only a string `response`
(the schema rejects every other shape), and for every accepted request the
handler passes `JSON.stringify(response)` — the JSON string serialization of
that string — as the `response` parameter of whichever downstream agent call
it issues. -/
theorem c3_response_stringified_amended (j : Json) (b : SummarizeBody)
    (hv : validateSummarizeBody j = some b) (rid eid : String)
    (hr : rid ≠ "") (he : eid ≠ "") (fcx : String → String → String)
    (mp sd : Except JsError String) (ag : Except JsError AgentEnvelope)
    (a : String) (ps : List (String × Option String))
    (hmem : DsCall.agentExecute a ps ∈
      (summarizeHandler (some rid) (some eid) fcx b mp sd ag).2) :
    ("response", some (jsonStringifyString b.response)) ∈ ps := by
  rw [summarizeHandler_snd rid eid hr he fcx b mp sd ag] at hmem
  rcases b with ⟨i, q, qq, r, ie⟩
  cases ie
  · simp at hmem
    rcases hmem with ⟨rfl, rfl⟩
    simp [responseSummaryParams]
  · rcases mp with e | m <;> rcases sd with e2 | d <;> simp at hmem
    rcases hmem with ⟨rfl, rfl⟩
    simp [errorSummaryParams]

/-- C3 witness: the amended theorem at a concrete accepted request: the
response-summary call carries `response = "\"ok\""`, the JSON serialization
of the string `"ok"`. -/
theorem c3_response_stringified_witness :
    ("response", some (jsonStringifyString "ok")) ∈
      ([("index", some "i"), ("question", some "q"), ("query", none),
        ("response", some "\"ok\"")] : List (String × Option String)) :=
  c3_response_stringified_amended c3StringBody ⟨"i", "q", none, "ok", false⟩
    rfl "agentR" "agentE" (by decide) (by decide) (fun _ _ => "")
    (.ok "m") (.ok "d") (.ok ⟨[]⟩) "agentR"
    [("index", some "i"), ("question", some "q"), ("query", none),
     ("response", some "\"ok\"")] (by decide)

/-- C8: the summarize handler's downstream-call pattern: with `isError:
false` it performs no mapping fetch and no sample search, only the
response-summary agent execution with parameters `{index, question, query,
response}`; with `isError: true` it performs the mapping fetch and the size-1
sample search exactly once each and then — both having succeeded — the
error-summary agent execution with the additional `fields` parameter derived
from both. -/
theorem c8_summarize_call_pattern (rid eid : String)
    (hr : rid ≠ "") (he : eid ≠ "") (fcx : String → String → String)
    (b : SummarizeBody) (mp sd : Except JsError String)
    (ag : Except JsError AgentEnvelope) :
    (summarizeHandler (some rid) (some eid) fcx b mp sd ag).2 =
      if b.isError then
        [DsCall.getMapping b.index, DsCall.search b.index 1] ++
          (match mp, sd with
           | .ok m, .ok d =>
             [DsCall.agentExecute eid
                (errorSummaryParams b (jsonStringifyString b.response) (fcx m d))]
           | _, _ => [])
      else
        [DsCall.agentExecute rid
           (responseSummaryParams b (jsonStringifyString b.response))] :=
  summarizeHandler_snd rid eid hr he fcx b mp sd ag

/-- C8 witness: the theorem at a concrete error-branch request — the mapping
fetch and sample search appear exactly once each, before the error-summary
agent execution. -/
theorem c8_summarize_call_pattern_witness :
    (summarizeHandler (some "agentR") (some "agentE") (fun _ _ => "F")
        ⟨"i", "q", none, "resp", true⟩ (.ok "m") (.ok "d") (.ok ⟨[]⟩)).2 =
      [DsCall.getMapping "i", DsCall.search "i" 1,
       DsCall.agentExecute "agentE"
         [("index", some "i"), ("question", some "q"), ("query", none),
          ("response", some "\"resp\""), ("fields", some "F")]] :=
  c8_summarize_call_pattern "agentR" "agentE" (by decide) (by decide)
    (fun _ _ => "F") ⟨"i", "q", none, "resp", true⟩ (.ok "m") (.ok "d")
    (.ok ⟨[]⟩)

/-- C10 witness: the amended theorem at a concrete request. -/
theorem c10_single_empty_tag_amended_witness :
    (summarizeHandler (some "agentR") (some "agentE") (fun _ _ => "")
        ⟨"i", "q", none, "resp", false⟩ (.ok "m") (.ok "d")
        (.ok ⟨[⟨[⟨"o0", some "SUM"⟩,
                 ⟨"o1", some "<question></question>"⟩]⟩]⟩)).1 =
      ⟨200, .summaryBody "SUM" []⟩ :=
  c10_single_empty_tag_amended "agentR" "agentE" "i" "q" "resp" none
    (by decide) (by decide) (fun _ _ => "") (.ok "m") (.ok "d")

end QueryAssist
